import Mathlib

/-! Verification of the month-sheet parser and workbook aggregator of the
budget tracker application (app.py). A sheet is a rectangular grid of
cells; a cell is text, numeric, or empty (NaN in pandas). Numeric cells
are modelled as integers. Element access df.iat[i, j] raises IndexError
when out of range; that raise is modelled by the error case of Except,
so a returned Except.error marks an exception escaping the parser. -/

deriving instance DecidableEq for Except

namespace BudgetApp

/-- A spreadsheet cell: text, number, or empty (NaN). -/
inductive Cell where
  | text (s : String)
  | num (n : Int)
  | empty
deriving DecidableEq

/-- Python isinstance(cell, str). -/
def Cell.isText : Cell → Bool
  | Cell.text _ => true
  | _ => false

/-- Python str(cell); the parser only applies it to non-empty cells. -/
def cellStr : Cell → String
  | Cell.text s => s
  | Cell.num n => toString n
  | Cell.empty => "nan"

/-- Python str.strip (whitespace removal at both ends), written over the
character list so that it computes by kernel reduction. -/
def pyStrip (s : String) : String :=
  ⟨((s.data.dropWhile Char.isWhitespace).reverse.dropWhile Char.isWhitespace).reverse⟩

/-- Python str.lower (ASCII case folding, matching the keywords used). -/
def pyLower (s : String) : String := ⟨s.data.map Char.toLower⟩

/-- Python str.startswith. -/
def pyStarts (s pre : String) : Bool := pre.data.isPrefixOf s.data

/-- A sheet grid as pandas exposes it: ncols is df.shape[1] and rows is
the list of rows, each of length ncols for a well-formed frame. -/
structure Grid where
  ncols : Nat
  rows : List (List Cell)
deriving DecidableEq

/-- Python len(df). -/
def Grid.nrows (g : Grid) : Nat := g.rows.length

/-- Python df.iat[i, j]; none models the IndexError raised when the
position is out of range. -/
def Grid.iat (g : Grid) (i j : Nat) : Option Cell :=
  (g.rows[i]?).bind (fun r => r[j]?)

/-- Rectangularity of a DataFrame: every row has exactly ncols cells. -/
def Grid.WF (g : Grid) : Prop := ∀ r ∈ g.rows, r.length = g.ncols

/-- One expense-category record as built at app.py lines 74-78 / 96-100. -/
structure CatRec where
  Category : String
  Planned : Option Cell
  Actual : Option Cell
deriving DecidableEq

/-- One fund record as built at app.py line 124. -/
structure FundRec where
  Fund : String
  Amount : Option Cell
deriving DecidableEq

/-- One home-side loan record as built at app.py line 145. -/
structure HomeLoanRec where
  Loan : String
  Outstanding : Option Cell
deriving DecidableEq

/-- One friend-side loan record as built at app.py line 164. -/
structure FriendLoanRec where
  Friend : String
  Outstanding : Option Cell
deriving DecidableEq

/-- The four collections returned by parse_month_sheet. -/
structure ParseResult where
  categories : List CatRec
  funds : List FundRec
  loans_home : List HomeLoanRec
  loans_friends : List FriendLoanRec
deriving DecidableEq

/-- Keyword equality test of find_row_index (app.py line 53): only a text
cell can match, after trimming and lowercasing. -/
def matchesKeyword (c : Cell) (kw : String) : Bool :=
  match c with
  | Cell.text s => pyLower (pyStrip s) == kw
  | _ => false

/-- Prefix variant used by the two loan-header searches (lines 132, 153). -/
def matchesKeywordStart (c : Cell) (kw : String) : Bool :=
  match c with
  | Cell.text s => pyStarts (pyLower (pyStrip s)) kw
  | _ => false

/-- One header-search loop: scan column col from row i downward for the
first cell satisfying p; fuel bounds the remaining iterations and is
always instantiated with g.nrows. Covers find_row_index (lines 50-55) and
the two inline header loops at lines 106-110, 130-134, 151-155. -/
def findHeaderF (g : Grid) (col : Nat) (p : Cell → Bool) : Nat → Nat → Except Unit (Option Nat)
  | 0, _ => Except.ok none
  | fuel + 1, i =>
    if i < g.nrows then
      match g.iat i col with
      | none => Except.error ()
      | some c => if p c then Except.ok (some i) else findHeaderF g col p fuel (i + 1)
    else Except.ok none

/-- find_row_index(col, keyword) of app.py (exact keyword match). -/
def find_row_index (g : Grid) (col : Nat) (kw : String) : Except Unit (Option Nat) :=
  findHeaderF g col (fun c => matchesKeyword c kw) g.nrows 0

/-- The unguarded value read of line 70: df.iat[i, col] if not isna else
None. Errors when the column is out of range. -/
def rawVal (g : Grid) (i col : Nat) : Except Unit (Option Cell) :=
  match g.iat i col with
  | none => Except.error ()
  | some c => Except.ok (if c = Cell.empty then none else some c)

/-- The width-guarded value read of lines 72, 123, 144, 163:
df.iat[i, col] if df.shape[1] > col and notna else None. -/
def guardedVal (g : Grid) (i col : Nat) : Except Unit (Option Cell) :=
  if col < g.ncols then rawVal g i col else Except.ok none

/-- Line 73: keep the guarded cell only if it is not a string. -/
def dropText : Option Cell → Option Cell
  | some c => if c.isText then none else some c
  | none => none

/-- Stop keywords of the Home category scan (app.py line 68). -/
def homeStops : List String :=
  ["bangalore", "funds", "salary", "loans/interest - home side", "friends side", "loans/interest"]

/-- Stop keywords of the Bangalore category scan (app.py line 91). -/
def bangStops : List String :=
  ["funds", "salary", "loans/interest - home side", "friends side", "loans/interest"]

/-- Rows skipped inside the Funds scan (app.py line 120). -/
def fundsSkips : List String := ["planned payments", "salary"]

/-- The category scan loop shared by the Home section (lines 60-79, with
stops = homeStops and pfx = the empty string) and the Bangalore section
(lines 84-101, with stops = bangStops and pfx = the Bangalore label).
Fuel bounds the remaining iterations; it is instantiated with
g.nrows - i, which the loop preserves. -/
def catLoopF (g : Grid) (stops : List String) (pfx : String) : Nat → Nat → Except Unit (List CatRec)
  | 0, _ => Except.ok []
  | fuel + 1, i =>
    if i < g.nrows then
      match g.iat i 0 with
      | none => Except.error ()
      | some name =>
        if name = Cell.empty then Except.ok []
        else
          if pyLower (pyStrip (cellStr name)) ∈ stops then Except.ok []
          else
            match rawVal g i 1 with
            | Except.error e => Except.error e
            | Except.ok planned =>
              match guardedVal g i 2 with
              | Except.error e => Except.error e
              | Except.ok actualCell =>
                match catLoopF g stops pfx fuel (i + 1) with
                | Except.error e => Except.error e
                | Except.ok rest =>
                  Except.ok (⟨pfx ++ pyStrip (cellStr name), planned, dropText actualCell⟩ :: rest)
    else Except.ok []

/-- Category scan from row i with enough fuel for the whole grid. -/
def catLoop (g : Grid) (stops : List String) (pfx : String) (i : Nat) : Except Unit (List CatRec) :=
  catLoopF g stops pfx (g.nrows - i) i

/-- The Funds scan loop (app.py lines 112-125): rows named in fundsSkips
are skipped without emitting a record. -/
def fundsLoopF (g : Grid) : Nat → Nat → Except Unit (List FundRec)
  | 0, _ => Except.ok []
  | fuel + 1, k =>
    if k < g.nrows then
      match g.iat k 7 with
      | none => Except.error ()
      | some cat =>
        if cat = Cell.empty then Except.ok []
        else
          if pyLower (pyStrip (cellStr cat)) ∈ fundsSkips then fundsLoopF g fuel (k + 1)
          else
            match guardedVal g k 8 with
            | Except.error e => Except.error e
            | Except.ok amount =>
              match fundsLoopF g fuel (k + 1) with
              | Except.error e => Except.error e
              | Except.ok rest => Except.ok (⟨pyStrip (cellStr cat), amount⟩ :: rest)
    else Except.ok []

/-- Funds scan from row k with enough fuel for the whole grid. -/
def fundsLoop (g : Grid) (k : Nat) : Except Unit (List FundRec) :=
  fundsLoopF g (g.nrows - k) k

/-- The home-side loan scan loop (app.py lines 136-146): stops at a name
whose lowering starts with the friends-side marker without emitting it. -/
def loansHomeLoopF (g : Grid) : Nat → Nat → Except Unit (List HomeLoanRec)
  | 0, _ => Except.ok []
  | fuel + 1, k =>
    if k < g.nrows then
      match g.iat k 10 with
      | none => Except.error ()
      | some c =>
        if c = Cell.empty then Except.ok []
        else
          if pyStarts (pyLower (pyStrip (cellStr c))) "friends side" then Except.ok []
          else
            match guardedVal g k 11 with
            | Except.error e => Except.error e
            | Except.ok amount =>
              match loansHomeLoopF g fuel (k + 1) with
              | Except.error e => Except.error e
              | Except.ok rest => Except.ok (⟨pyStrip (cellStr c), amount⟩ :: rest)
    else Except.ok []

/-- Home-side loan scan from row k with enough fuel for the whole grid. -/
def loansHomeLoop (g : Grid) (k : Nat) : Except Unit (List HomeLoanRec) :=
  loansHomeLoopF g (g.nrows - k) k

/-- The friend-side loan scan loop (app.py lines 157-165): no keyword
stop, the scan runs to the first blank name cell. -/
def friendsLoopF (g : Grid) : Nat → Nat → Except Unit (List FriendLoanRec)
  | 0, _ => Except.ok []
  | fuel + 1, k =>
    if k < g.nrows then
      match g.iat k 10 with
      | none => Except.error ()
      | some c =>
        if c = Cell.empty then Except.ok []
        else
          match guardedVal g k 11 with
          | Except.error e => Except.error e
          | Except.ok amount =>
            match friendsLoopF g fuel (k + 1) with
            | Except.error e => Except.error e
            | Except.ok rest => Except.ok (⟨pyStrip (cellStr c), amount⟩ :: rest)
    else Except.ok []

/-- Friend-side loan scan from row k with enough fuel for the whole grid. -/
def friendsLoop (g : Grid) (k : Nat) : Except Unit (List FriendLoanRec) :=
  friendsLoopF g (g.nrows - k) k

/-- The Home category section of parse_month_sheet (lines 57-79). -/
def homeCats (g : Grid) : Except Unit (List CatRec) :=
  match find_row_index g 0 "home" with
  | Except.error e => Except.error e
  | Except.ok (some s) => catLoop g homeStops "" (s + 1)
  | Except.ok none => Except.ok []

/-- The Bangalore category section of parse_month_sheet (lines 81-101);
emitted names carry the location label as a dash-separated marker. -/
def bangCats (g : Grid) : Except Unit (List CatRec) :=
  match find_row_index g 0 "bangalore" with
  | Except.error e => Except.error e
  | Except.ok (some s) => catLoop g bangStops "Bangalore - " (s + 1)
  | Except.ok none => Except.ok []

/-- The Funds section of parse_month_sheet (lines 103-125); the header
search itself is guarded by df.shape[1] > 7. -/
def fundsSection (g : Grid) : Except Unit (List FundRec) :=
  if 7 < g.ncols then
    match find_row_index g 7 "funds" with
    | Except.error e => Except.error e
    | Except.ok (some s) => fundsLoop g (s + 1)
    | Except.ok none => Except.ok []
  else Except.ok []

/-- The home-side loan section of parse_month_sheet (lines 127-146);
guarded by df.shape[1] > 10 and headed by a cell whose lowering starts
with the loans marker. -/
def loansHomeSection (g : Grid) : Except Unit (List HomeLoanRec) :=
  if 10 < g.ncols then
    match findHeaderF g 10 (fun c => matchesKeywordStart c "loans/interest") g.nrows 0 with
    | Except.error e => Except.error e
    | Except.ok (some s) => loansHomeLoop g (s + 1)
    | Except.ok none => Except.ok []
  else Except.ok []

/-- The friend-side loan section of parse_month_sheet (lines 148-165). -/
def loansFriendsSection (g : Grid) : Except Unit (List FriendLoanRec) :=
  if 10 < g.ncols then
    match findHeaderF g 10 (fun c => matchesKeywordStart c "friends side") g.nrows 0 with
    | Except.error e => Except.error e
    | Except.ok (some s) => friendsLoop g (s + 1)
    | Except.ok none => Except.ok []
  else Except.ok []

/-- parse_month_sheet of app.py (lines 25-167): the five section scans in
program order, an exception in any of them aborting the whole call. -/
def parse_month_sheet (g : Grid) : Except Unit ParseResult :=
  match homeCats g with
  | Except.error e => Except.error e
  | Except.ok c1 =>
    match bangCats g with
    | Except.error e => Except.error e
    | Except.ok c2 =>
      match fundsSection g with
      | Except.error e => Except.error e
      | Except.ok fs =>
        match loansHomeSection g with
        | Except.error e => Except.error e
        | Except.ok lh =>
          match loansFriendsSection g with
          | Except.error e => Except.error e
          | Except.ok lf => Except.ok ⟨c1 ++ c2, fs, lh, lf⟩

/-- One aggregate category row (app.py lines 196-201). -/
structure CatRow where
  Month : String
  Category : String
  Planned : Option Cell
  Actual : Option Cell
deriving DecidableEq

/-- One aggregate fund row (app.py lines 202-207). -/
structure FundRow where
  Month : String
  Fund : String
  Amount : Option Cell
deriving DecidableEq

/-- One aggregate home-loan row (app.py lines 208-213). -/
structure HomeLoanRow where
  Month : String
  Loan : String
  Outstanding : Option Cell
deriving DecidableEq

/-- One aggregate friend-loan row (app.py lines 214-219). -/
structure FriendLoanRow where
  Month : String
  Friend : String
  Outstanding : Option Cell
deriving DecidableEq

/-- The four aggregate tables returned by load_workbook. -/
structure Tables where
  cat_rows : List CatRow
  funds_rows : List FundRow
  loans_home_rows : List HomeLoanRow
  loans_friends_rows : List FriendLoanRow
deriving DecidableEq

/-- Tag every record of one parse result with its sheet name as Month
(the four inner loops of app.py lines 195-219). -/
def tagTables (month : String) (r : ParseResult) : Tables :=
  ⟨r.categories.map (fun c => ⟨month, c.Category, c.Planned, c.Actual⟩),
   r.funds.map (fun f => ⟨month, f.Fund, f.Amount⟩),
   r.loans_home.map (fun l => ⟨month, l.Loan, l.Outstanding⟩),
   r.loans_friends.map (fun l => ⟨month, l.Friend, l.Outstanding⟩)⟩

/-- load_workbook of app.py (lines 170-224) over an already-read list of
named sheets: parse each sheet in order, tag its records with the sheet
name, and append to the running tables; a parse exception aborts the
whole load. -/
def load_workbook : List (String × Grid) → Except Unit Tables
  | [] => Except.ok ⟨[], [], [], []⟩
  | s :: rest =>
    match parse_month_sheet s.2 with
    | Except.error e => Except.error e
    | Except.ok r =>
      match load_workbook rest with
      | Except.error e => Except.error e
      | Except.ok t =>
        Except.ok ⟨(tagTables s.1 r).cat_rows ++ t.cat_rows,
                   (tagTables s.1 r).funds_rows ++ t.funds_rows,
                   (tagTables s.1 r).loans_home_rows ++ t.loans_home_rows,
                   (tagTables s.1 r).loans_friends_rows ++ t.loans_friends_rows⟩

/-- Modelled from the spec (section 4.2): the aggregate tables are the
concatenation, in sheet order, of each sheet-parse result with every
record tagged with its sheet name as Month. Stated independently of
load_workbook so the two can be compared. -/
def aggregateSpec (sheets : List (String × Grid)) : Except Unit Tables :=
  Except.map
    (fun ts => ⟨(ts.map Tables.cat_rows).flatten, (ts.map Tables.funds_rows).flatten,
                (ts.map Tables.loans_home_rows).flatten, (ts.map Tables.loans_friends_rows).flatten⟩)
    (sheets.mapM (fun s => Except.map (tagTables s.1) (parse_month_sheet s.2)))

/-! Basic facts about grid access. -/

lemma Grid.lt_nrows_of_iat {g : Grid} {i j : Nat} {c : Cell} (h : g.iat i j = some c) :
    i < g.nrows := by
  unfold Grid.iat at h
  cases hr : g.rows[i]? with
  | none => rw [hr] at h; simp at h
  | some r => exact (List.getElem?_eq_some.mp hr).1

lemma Grid.iat_some_of_wf {g : Grid} (hwf : g.WF) {i j : Nat} (hi : i < g.nrows)
    (hj : j < g.ncols) : ∃ c, g.iat i j = some c := by
  have hi' : i < g.rows.length := hi
  unfold Grid.iat
  rw [List.getElem?_eq_getElem hi']
  have hlen : (g.rows[i]).length = g.ncols := hwf _ (List.getElem_mem hi')
  have hj2 : j < (g.rows[i]).length := by rw [hlen]; exact hj
  exact ⟨g.rows[i][j], by simp [List.getElem?_eq_getElem hj2]⟩

lemma rawVal_ok (g : Grid) (hwf : g.WF) {i col : Nat} (hi : i < g.nrows)
    (hcol : col < g.ncols) : ∃ a, rawVal g i col = Except.ok a := by
  obtain ⟨c, hc⟩ := Grid.iat_some_of_wf hwf hi hcol
  exact ⟨_, by unfold rawVal; rw [hc]⟩

lemma guardedVal_ok (g : Grid) (hwf : g.WF) {i : Nat} (hi : i < g.nrows) (col : Nat) :
    ∃ a, guardedVal g i col = Except.ok a := by
  unfold guardedVal
  by_cases hcol : col < g.ncols
  · obtain ⟨a, ha⟩ := rawVal_ok g hwf hi hcol
    exact ⟨a, by rw [if_pos hcol]; exact ha⟩
  · exact ⟨none, by rw [if_neg hcol]⟩

/-! Unfolding lemmas for the section scan loops. -/

lemma catLoop_nil (g : Grid) (stops : List String) (pfx : String) {i : Nat}
    (h : g.nrows ≤ i) : catLoop g stops pfx i = Except.ok [] := by
  unfold catLoop
  have hz : g.nrows - i = 0 := by omega
  rw [hz]
  rfl

lemma catLoop_succ (g : Grid) (stops : List String) (pfx : String) {i : Nat}
    (hi : i < g.nrows) :
    catLoop g stops pfx i = catLoopF g stops pfx ((g.nrows - (i + 1)) + 1) i := by
  unfold catLoop
  congr 1
  omega

lemma catLoop_stop_empty (g : Grid) (stops : List String) (pfx : String) {i : Nat}
    (h : g.iat i 0 = some Cell.empty) : catLoop g stops pfx i = Except.ok [] := by
  have hi := Grid.lt_nrows_of_iat h
  rw [catLoop_succ g stops pfx hi]
  simp [catLoopF, hi, h]

lemma catLoop_stop_kw (g : Grid) (stops : List String) (pfx : String) {i : Nat} {c : Cell}
    (h : g.iat i 0 = some c) (hne : c ≠ Cell.empty)
    (hk : pyLower (pyStrip (cellStr c)) ∈ stops) : catLoop g stops pfx i = Except.ok [] := by
  have hi := Grid.lt_nrows_of_iat h
  rw [catLoop_succ g stops pfx hi]
  simp [catLoopF, hi, h, hne, hk]

lemma catLoop_step (g : Grid) (stops : List String) (pfx : String) {i : Nat} {c : Cell}
    {p a : Option Cell} (h : g.iat i 0 = some c) (hne : c ≠ Cell.empty)
    (hstop : pyLower (pyStrip (cellStr c)) ∉ stops)
    (h1 : rawVal g i 1 = Except.ok p) (h2 : guardedVal g i 2 = Except.ok a) :
    catLoop g stops pfx i =
      Except.map (List.cons ⟨pfx ++ pyStrip (cellStr c), p, dropText a⟩)
        (catLoop g stops pfx (i + 1)) := by
  have hi := Grid.lt_nrows_of_iat h
  rw [catLoop_succ g stops pfx hi]
  simp only [catLoopF, hi, if_true, h, hne, if_neg, hstop, h1, h2]
  show (match catLoop g stops pfx (i + 1) with
    | Except.error e => Except.error e
    | Except.ok rest => Except.ok ((⟨pfx ++ pyStrip (cellStr c), p, dropText a⟩ : CatRec) :: rest)) = _
  cases catLoop g stops pfx (i + 1) with
  | error e => rfl
  | ok rest => rfl

lemma fundsLoop_nil (g : Grid) {k : Nat} (h : g.nrows ≤ k) :
    fundsLoop g k = Except.ok [] := by
  unfold fundsLoop
  have hz : g.nrows - k = 0 := by omega
  rw [hz]
  rfl

lemma fundsLoop_succ (g : Grid) {k : Nat} (hk : k < g.nrows) :
    fundsLoop g k = fundsLoopF g ((g.nrows - (k + 1)) + 1) k := by
  unfold fundsLoop
  congr 1
  omega

lemma fundsLoop_stop_empty (g : Grid) {k : Nat} (h : g.iat k 7 = some Cell.empty) :
    fundsLoop g k = Except.ok [] := by
  have hk := Grid.lt_nrows_of_iat h
  rw [fundsLoop_succ g hk]
  simp [fundsLoopF, hk, h]

lemma fundsLoop_skip (g : Grid) {k : Nat} {c : Cell} (h : g.iat k 7 = some c)
    (hne : c ≠ Cell.empty) (hk : pyLower (pyStrip (cellStr c)) ∈ fundsSkips) :
    fundsLoop g k = fundsLoop g (k + 1) := by
  have hklt := Grid.lt_nrows_of_iat h
  rw [fundsLoop_succ g hklt]
  simp only [fundsLoopF, hklt, if_true, h, hne, if_neg, hk]
  rfl

lemma fundsLoop_step (g : Grid) {k : Nat} {c : Cell} {a : Option Cell}
    (h : g.iat k 7 = some c) (hne : c ≠ Cell.empty)
    (hskip : pyLower (pyStrip (cellStr c)) ∉ fundsSkips)
    (ha : guardedVal g k 8 = Except.ok a) :
    fundsLoop g k =
      Except.map (List.cons ⟨pyStrip (cellStr c), a⟩) (fundsLoop g (k + 1)) := by
  have hk := Grid.lt_nrows_of_iat h
  rw [fundsLoop_succ g hk]
  simp only [fundsLoopF, hk, if_true, h, hne, if_neg, hskip, ha]
  show (match fundsLoop g (k + 1) with
    | Except.error e => Except.error e
    | Except.ok rest => Except.ok ((⟨pyStrip (cellStr c), a⟩ : FundRec) :: rest)) = _
  cases fundsLoop g (k + 1) with
  | error e => rfl
  | ok rest => rfl

lemma loansHomeLoop_nil (g : Grid) {k : Nat} (h : g.nrows ≤ k) :
    loansHomeLoop g k = Except.ok [] := by
  unfold loansHomeLoop
  have hz : g.nrows - k = 0 := by omega
  rw [hz]
  rfl

lemma loansHomeLoop_succ (g : Grid) {k : Nat} (hk : k < g.nrows) :
    loansHomeLoop g k = loansHomeLoopF g ((g.nrows - (k + 1)) + 1) k := by
  unfold loansHomeLoop
  congr 1
  omega

lemma loansHomeLoop_stop_empty (g : Grid) {k : Nat} (h : g.iat k 10 = some Cell.empty) :
    loansHomeLoop g k = Except.ok [] := by
  have hk := Grid.lt_nrows_of_iat h
  rw [loansHomeLoop_succ g hk]
  simp [loansHomeLoopF, hk, h]

lemma loansHomeLoop_stop_friends (g : Grid) {k : Nat} {c : Cell}
    (h : g.iat k 10 = some c) (hne : c ≠ Cell.empty)
    (hf : pyStarts (pyLower (pyStrip (cellStr c))) "friends side" = true) :
    loansHomeLoop g k = Except.ok [] := by
  have hk := Grid.lt_nrows_of_iat h
  rw [loansHomeLoop_succ g hk]
  simp [loansHomeLoopF, hk, h, hne, hf]

lemma loansHomeLoop_step (g : Grid) {k : Nat} {c : Cell} {a : Option Cell}
    (h : g.iat k 10 = some c) (hne : c ≠ Cell.empty)
    (hf : pyStarts (pyLower (pyStrip (cellStr c))) "friends side" = false)
    (ha : guardedVal g k 11 = Except.ok a) :
    loansHomeLoop g k =
      Except.map (List.cons ⟨pyStrip (cellStr c), a⟩) (loansHomeLoop g (k + 1)) := by
  have hk := Grid.lt_nrows_of_iat h
  rw [loansHomeLoop_succ g hk]
  simp only [loansHomeLoopF, hk, if_true, h, hne, if_neg, hf, ha, Bool.false_eq_true]
  show (match loansHomeLoop g (k + 1) with
    | Except.error e => Except.error e
    | Except.ok rest => Except.ok ((⟨pyStrip (cellStr c), a⟩ : HomeLoanRec) :: rest)) = _
  cases loansHomeLoop g (k + 1) with
  | error e => rfl
  | ok rest => rfl

lemma friendsLoop_nil (g : Grid) {k : Nat} (h : g.nrows ≤ k) :
    friendsLoop g k = Except.ok [] := by
  unfold friendsLoop
  have hz : g.nrows - k = 0 := by omega
  rw [hz]
  rfl

lemma friendsLoop_succ (g : Grid) {k : Nat} (hk : k < g.nrows) :
    friendsLoop g k = friendsLoopF g ((g.nrows - (k + 1)) + 1) k := by
  unfold friendsLoop
  congr 1
  omega

lemma friendsLoop_stop_empty (g : Grid) {k : Nat} (h : g.iat k 10 = some Cell.empty) :
    friendsLoop g k = Except.ok [] := by
  have hk := Grid.lt_nrows_of_iat h
  rw [friendsLoop_succ g hk]
  simp [friendsLoopF, hk, h]

lemma friendsLoop_step (g : Grid) {k : Nat} {c : Cell} {a : Option Cell}
    (h : g.iat k 10 = some c) (hne : c ≠ Cell.empty)
    (ha : guardedVal g k 11 = Except.ok a) :
    friendsLoop g k =
      Except.map (List.cons ⟨pyStrip (cellStr c), a⟩) (friendsLoop g (k + 1)) := by
  have hk := Grid.lt_nrows_of_iat h
  rw [friendsLoop_succ g hk]
  simp only [friendsLoopF, hk, if_true, h, hne, if_neg, ha]
  show (match friendsLoop g (k + 1) with
    | Except.error e => Except.error e
    | Except.ok rest => Except.ok ((⟨pyStrip (cellStr c), a⟩ : FriendLoanRec) :: rest)) = _
  cases friendsLoop g (k + 1) with
  | error e => rfl
  | ok rest => rfl

/-! Facts about the header searches. -/

lemma findHeaderF_ok (g : Grid) (col : Nat) (p : Cell → Bool)
    (hsome : ∀ i, i < g.nrows → (g.iat i col).isSome = true) :
    ∀ fuel i, ∃ r, findHeaderF g col p fuel i = Except.ok r := by
  intro fuel
  induction fuel with
  | zero => intro i; exact ⟨none, rfl⟩
  | succ f ih =>
    intro i
    by_cases hi : i < g.nrows
    · obtain ⟨c, hc⟩ := Option.isSome_iff_exists.mp (hsome i hi)
      by_cases hp : p c = true
      · exact ⟨some i, by simp [findHeaderF, hi, hc, hp]⟩
      · obtain ⟨r, hr⟩ := ih (i + 1)
        exact ⟨r, by simp [findHeaderF, hi, hc, hp, hr]⟩
    · exact ⟨none, by simp [findHeaderF, hi]⟩

lemma findHeaderF_none (g : Grid) (col : Nat) (p : Cell → Bool)
    (hsome : ∀ i, i < g.nrows → (g.iat i col).isSome = true)
    (hno : ∀ i c, i < g.nrows → g.iat i col = some c → p c = false) :
    ∀ fuel i, findHeaderF g col p fuel i = Except.ok none := by
  intro fuel
  induction fuel with
  | zero => intro i; rfl
  | succ f ih =>
    intro i
    by_cases hi : i < g.nrows
    · obtain ⟨c, hc⟩ := Option.isSome_iff_exists.mp (hsome i hi)
      have hp := hno i c hi hc
      simp [findHeaderF, hi, hc, hp, ih (i + 1)]
    · simp [findHeaderF, hi]

/-! No-exception lemmas: each scan loop returns ok as soon as the columns
it reads without a width guard exist in the grid. -/

lemma catLoopF_ok (g : Grid) (stops : List String) (pfx : String) (hwf : g.WF)
    (h2 : 2 ≤ g.ncols) : ∀ fuel i, ∃ out, catLoopF g stops pfx fuel i = Except.ok out := by
  intro fuel
  induction fuel with
  | zero => intro i; exact ⟨[], rfl⟩
  | succ f ih =>
    intro i
    by_cases hi : i < g.nrows
    · obtain ⟨c, hc⟩ := Grid.iat_some_of_wf hwf hi (show (0 : Nat) < g.ncols by omega)
      by_cases hne : c = Cell.empty
      · subst hne
        exact ⟨[], by simp [catLoopF, hi, hc]⟩
      · by_cases hstop : pyLower (pyStrip (cellStr c)) ∈ stops
        · exact ⟨[], by simp [catLoopF, hi, hc, hne, hstop]⟩
        · obtain ⟨p, hp⟩ := rawVal_ok g hwf hi (show (1 : Nat) < g.ncols by omega)
          obtain ⟨a, ha⟩ := guardedVal_ok g hwf hi 2
          obtain ⟨rest, hrest⟩ := ih (i + 1)
          exact ⟨⟨pfx ++ pyStrip (cellStr c), p, dropText a⟩ :: rest,
            by simp [catLoopF, hi, hc, hne, hstop, hp, ha, hrest]⟩
    · exact ⟨[], by simp [catLoopF, hi]⟩

lemma fundsLoopF_ok (g : Grid) (hwf : g.WF) (h7 : 7 < g.ncols) :
    ∀ fuel k, ∃ out, fundsLoopF g fuel k = Except.ok out := by
  intro fuel
  induction fuel with
  | zero => intro k; exact ⟨[], rfl⟩
  | succ f ih =>
    intro k
    by_cases hk : k < g.nrows
    · obtain ⟨c, hc⟩ := Grid.iat_some_of_wf hwf hk h7
      by_cases hne : c = Cell.empty
      · subst hne
        exact ⟨[], by simp [fundsLoopF, hk, hc]⟩
      · by_cases hskip : pyLower (pyStrip (cellStr c)) ∈ fundsSkips
        · obtain ⟨out, hout⟩ := ih (k + 1)
          exact ⟨out, by simp [fundsLoopF, hk, hc, hne, hskip, hout]⟩
        · obtain ⟨a, ha⟩ := guardedVal_ok g hwf hk 8
          obtain ⟨rest, hrest⟩ := ih (k + 1)
          exact ⟨⟨pyStrip (cellStr c), a⟩ :: rest,
            by simp [fundsLoopF, hk, hc, hne, hskip, ha, hrest]⟩
    · exact ⟨[], by simp [fundsLoopF, hk]⟩

lemma loansHomeLoopF_ok (g : Grid) (hwf : g.WF) (h10 : 10 < g.ncols) :
    ∀ fuel k, ∃ out, loansHomeLoopF g fuel k = Except.ok out := by
  intro fuel
  induction fuel with
  | zero => intro k; exact ⟨[], rfl⟩
  | succ f ih =>
    intro k
    by_cases hk : k < g.nrows
    · obtain ⟨c, hc⟩ := Grid.iat_some_of_wf hwf hk h10
      by_cases hne : c = Cell.empty
      · subst hne
        exact ⟨[], by simp [loansHomeLoopF, hk, hc]⟩
      · by_cases hf : pyStarts (pyLower (pyStrip (cellStr c))) "friends side" = true
        · exact ⟨[], by simp [loansHomeLoopF, hk, hc, hne, hf]⟩
        · obtain ⟨a, ha⟩ := guardedVal_ok g hwf hk 11
          obtain ⟨rest, hrest⟩ := ih (k + 1)
          exact ⟨⟨pyStrip (cellStr c), a⟩ :: rest,
            by simp [loansHomeLoopF, hk, hc, hne, hf, ha, hrest]⟩
    · exact ⟨[], by simp [loansHomeLoopF, hk]⟩

lemma friendsLoopF_ok (g : Grid) (hwf : g.WF) (h10 : 10 < g.ncols) :
    ∀ fuel k, ∃ out, friendsLoopF g fuel k = Except.ok out := by
  intro fuel
  induction fuel with
  | zero => intro k; exact ⟨[], rfl⟩
  | succ f ih =>
    intro k
    by_cases hk : k < g.nrows
    · obtain ⟨c, hc⟩ := Grid.iat_some_of_wf hwf hk h10
      by_cases hne : c = Cell.empty
      · subst hne
        exact ⟨[], by simp [friendsLoopF, hk, hc]⟩
      · obtain ⟨a, ha⟩ := guardedVal_ok g hwf hk 11
        obtain ⟨rest, hrest⟩ := ih (k + 1)
        exact ⟨⟨pyStrip (cellStr c), a⟩ :: rest,
          by simp [friendsLoopF, hk, hc, hne, ha, hrest]⟩
    · exact ⟨[], by simp [friendsLoopF, hk]⟩

/-! Column presence from well-formedness. -/

lemma iat_isSome_col (g : Grid) (hwf : g.WF) {col : Nat} (hcol : col < g.ncols) :
    ∀ i, i < g.nrows → (g.iat i col).isSome = true := by
  intro i hi
  obtain ⟨c, hc⟩ := Grid.iat_some_of_wf hwf hi hcol
  simp [hc]

lemma iat_isSome_col0 (g : Grid) (hwf : g.WF) (h : 1 ≤ g.ncols ∨ g.nrows = 0) :
    ∀ i, i < g.nrows → (g.iat i 0).isSome = true := by
  intro i hi
  cases h with
  | inl h1 => exact iat_isSome_col g hwf (by omega) i hi
  | inr h0 => omega

/-! Section-level no-exception lemmas. -/

lemma homeCats_ok (g : Grid) (hwf : g.WF) (h2 : 2 ≤ g.ncols) :
    ∃ out, homeCats g = Except.ok out := by
  obtain ⟨r, hr⟩ := findHeaderF_ok g 0 (fun c => matchesKeyword c "home")
    (iat_isSome_col g hwf (by omega)) g.nrows 0
  unfold homeCats find_row_index
  rw [hr]
  cases r with
  | none => exact ⟨[], rfl⟩
  | some s =>
    obtain ⟨out, hout⟩ := catLoopF_ok g homeStops "" hwf h2 (g.nrows - (s + 1)) (s + 1)
    exact ⟨out, hout⟩

lemma bangCats_ok (g : Grid) (hwf : g.WF) (h2 : 2 ≤ g.ncols) :
    ∃ out, bangCats g = Except.ok out := by
  obtain ⟨r, hr⟩ := findHeaderF_ok g 0 (fun c => matchesKeyword c "bangalore")
    (iat_isSome_col g hwf (by omega)) g.nrows 0
  unfold bangCats find_row_index
  rw [hr]
  cases r with
  | none => exact ⟨[], rfl⟩
  | some s =>
    obtain ⟨out, hout⟩ := catLoopF_ok g bangStops "Bangalore - " hwf h2 (g.nrows - (s + 1)) (s + 1)
    exact ⟨out, hout⟩

lemma fundsSection_ok (g : Grid) (hwf : g.WF) :
    ∃ out, fundsSection g = Except.ok out := by
  unfold fundsSection
  by_cases h7 : 7 < g.ncols
  · rw [if_pos h7]
    obtain ⟨r, hr⟩ := findHeaderF_ok g 7 (fun c => matchesKeyword c "funds")
      (iat_isSome_col g hwf h7) g.nrows 0
    unfold find_row_index
    rw [hr]
    cases r with
    | none => exact ⟨[], rfl⟩
    | some s => exact fundsLoopF_ok g hwf h7 (g.nrows - (s + 1)) (s + 1)
  · rw [if_neg h7]
    exact ⟨[], rfl⟩

lemma loansHomeSection_ok (g : Grid) (hwf : g.WF) :
    ∃ out, loansHomeSection g = Except.ok out := by
  unfold loansHomeSection
  by_cases h10 : 10 < g.ncols
  · rw [if_pos h10]
    obtain ⟨r, hr⟩ := findHeaderF_ok g 10 (fun c => matchesKeywordStart c "loans/interest")
      (iat_isSome_col g hwf h10) g.nrows 0
    rw [hr]
    cases r with
    | none => exact ⟨[], rfl⟩
    | some s => exact loansHomeLoopF_ok g hwf h10 (g.nrows - (s + 1)) (s + 1)
  · rw [if_neg h10]
    exact ⟨[], rfl⟩

lemma loansFriendsSection_ok (g : Grid) (hwf : g.WF) :
    ∃ out, loansFriendsSection g = Except.ok out := by
  unfold loansFriendsSection
  by_cases h10 : 10 < g.ncols
  · rw [if_pos h10]
    obtain ⟨r, hr⟩ := findHeaderF_ok g 10 (fun c => matchesKeywordStart c "friends side")
      (iat_isSome_col g hwf h10) g.nrows 0
    rw [hr]
    cases r with
    | none => exact ⟨[], rfl⟩
    | some s => exact friendsLoopF_ok g hwf h10 (g.nrows - (s + 1)) (s + 1)
  · rw [if_neg h10]
    exact ⟨[], rfl⟩

lemma parse_month_sheet_ok (g : Grid) (hwf : g.WF) (h2 : 2 ≤ g.ncols) :
    ∃ r, parse_month_sheet g = Except.ok r := by
  obtain ⟨c1, h1⟩ := homeCats_ok g hwf h2
  obtain ⟨c2, hb⟩ := bangCats_ok g hwf h2
  obtain ⟨fs, hf⟩ := fundsSection_ok g hwf
  obtain ⟨lh, hlh⟩ := loansHomeSection_ok g hwf
  obtain ⟨lf, hlf⟩ := loansFriendsSection_ok g hwf
  exact ⟨_, by unfold parse_month_sheet; rw [h1, hb, hf, hlh, hlf]⟩

/-! Absence of every recognized section header, as the claims state it. -/

/-- Keyword match lifted to a possibly missing cell. -/
def optMatches (oc : Option Cell) (kw : String) : Bool :=
  match oc with
  | some c => matchesKeyword c kw
  | none => false

/-- Keyword start-match lifted to a possibly missing cell. -/
def optMatchesStart (oc : Option Cell) (kw : String) : Bool :=
  match oc with
  | some c => matchesKeywordStart c kw
  | none => false

/-- No cell of the grid matches any recognized section header keyword in
the column in which the parser looks for it. -/
def noRecognizedHeader (g : Grid) : Prop :=
  ∀ i, i < g.nrows →
    optMatches (g.iat i 0) "home" = false ∧
    optMatches (g.iat i 0) "bangalore" = false ∧
    optMatches (g.iat i 7) "funds" = false ∧
    optMatchesStart (g.iat i 10) "loans/interest" = false ∧
    optMatchesStart (g.iat i 10) "friends side" = false

lemma parse_month_sheet_no_headers (g : Grid) (hwf : g.WF)
    (hc : 1 ≤ g.ncols ∨ g.nrows = 0) (hnh : noRecognizedHeader g) :
    parse_month_sheet g = Except.ok ⟨[], [], [], []⟩ := by
  have hs0 := iat_isSome_col0 g hwf hc
  have hhome : homeCats g = Except.ok [] := by
    unfold homeCats find_row_index
    rw [findHeaderF_none g 0 _ hs0 (fun i c hi hic => by
      have := (hnh i hi).1
      rw [hic] at this
      exact this) g.nrows 0]
  have hbang : bangCats g = Except.ok [] := by
    unfold bangCats find_row_index
    rw [findHeaderF_none g 0 _ hs0 (fun i c hi hic => by
      have := (hnh i hi).2.1
      rw [hic] at this
      exact this) g.nrows 0]
  have hfunds : fundsSection g = Except.ok [] := by
    unfold fundsSection
    by_cases h7 : 7 < g.ncols
    · rw [if_pos h7]
      unfold find_row_index
      rw [findHeaderF_none g 7 _ (iat_isSome_col g hwf h7) (fun i c hi hic => by
        have := (hnh i hi).2.2.1
        rw [hic] at this
        exact this) g.nrows 0]
    · rw [if_neg h7]
  have hlh : loansHomeSection g = Except.ok [] := by
    unfold loansHomeSection
    by_cases h10 : 10 < g.ncols
    · rw [if_pos h10]
      rw [findHeaderF_none g 10 _ (iat_isSome_col g hwf h10) (fun i c hi hic => by
        have := (hnh i hi).2.2.2.1
        rw [hic] at this
        exact this) g.nrows 0]
    · rw [if_neg h10]
  have hlf : loansFriendsSection g = Except.ok [] := by
    unfold loansFriendsSection
    by_cases h10 : 10 < g.ncols
    · rw [if_pos h10]
      rw [findHeaderF_none g 10 _ (iat_isSome_col g hwf h10) (fun i c hi hic => by
        have := (hnh i hi).2.2.2.2
        rw [hic] at this
        exact this) g.nrows 0]
    · rw [if_neg h10]
  unfold parse_month_sheet
  rw [hhome, hbang, hfunds, hlh, hlf]
  rfl

/-! Congruence lemmas: the value reads depend only on the cell and width. -/

lemma rawVal_congr {g g' : Grid} {i col : Nat} (h : g.iat i col = g'.iat i col) :
    rawVal g i col = rawVal g' i col := by
  unfold rawVal
  rw [h]

lemma guardedVal_congr {g g' : Grid} {i col : Nat} (hcn : g.ncols = g'.ncols)
    (h : g.iat i col = g'.iat i col) : guardedVal g i col = guardedVal g' i col := by
  unfold guardedVal
  rw [hcn, rawVal_congr h]

/-! Blindness lemmas: a scan started at or above a blank name cell reads
nothing from the rows at or below that blank, so two grids of the same
shape agreeing on all rows above the blank scan identically. -/

lemma catLoopF_blind (g g' : Grid) (stops : List String) (pfx : String)
    (hn : g.nrows = g'.nrows) (hcn : g.ncols = g'.ncols) (b : Nat)
    (hb : g.iat b 0 = some Cell.empty) (hb' : g'.iat b 0 = some Cell.empty)
    (hag : ∀ r c, r < b → g.iat r c = g'.iat r c) :
    ∀ fuel i, i ≤ b → catLoopF g stops pfx fuel i = catLoopF g' stops pfx fuel i := by
  intro fuel
  induction fuel with
  | zero => intro i _; rfl
  | succ f ih =>
    intro i hib
    by_cases hi : i < g.nrows
    · have hi' : i < g'.nrows := by omega
      rcases Nat.lt_or_ge i b with hlt | hge
      · simp only [catLoopF]
        rw [if_pos hi, if_pos hi']
        rw [← hag i 0 hlt, ← rawVal_congr (hag i 1 hlt),
          ← guardedVal_congr hcn (hag i 2 hlt), ← ih (i + 1) (by omega)]
      · have hieq : i = b := by omega
        subst hieq
        simp only [catLoopF]
        rw [if_pos hi, if_pos hi', hb, hb']
        rfl
    · have hi' : ¬ i < g'.nrows := by omega
      simp only [catLoopF]
      rw [if_neg hi, if_neg hi']

lemma fundsLoopF_blind (g g' : Grid) (hn : g.nrows = g'.nrows) (hcn : g.ncols = g'.ncols)
    (b : Nat) (hb : g.iat b 7 = some Cell.empty) (hb' : g'.iat b 7 = some Cell.empty)
    (hag : ∀ r c, r < b → g.iat r c = g'.iat r c) :
    ∀ fuel k, k ≤ b → fundsLoopF g fuel k = fundsLoopF g' fuel k := by
  intro fuel
  induction fuel with
  | zero => intro k _; rfl
  | succ f ih =>
    intro k hkb
    by_cases hk : k < g.nrows
    · have hk' : k < g'.nrows := by omega
      rcases Nat.lt_or_ge k b with hlt | hge
      · simp only [fundsLoopF]
        rw [if_pos hk, if_pos hk']
        rw [← hag k 7 hlt, ← guardedVal_congr hcn (hag k 8 hlt), ← ih (k + 1) (by omega)]
      · have hkeq : k = b := by omega
        subst hkeq
        simp only [fundsLoopF]
        rw [if_pos hk, if_pos hk', hb, hb']
        rfl
    · have hk' : ¬ k < g'.nrows := by omega
      simp only [fundsLoopF]
      rw [if_neg hk, if_neg hk']

lemma loansHomeLoopF_blind (g g' : Grid) (hn : g.nrows = g'.nrows)
    (hcn : g.ncols = g'.ncols) (b : Nat) (hb : g.iat b 10 = some Cell.empty)
    (hb' : g'.iat b 10 = some Cell.empty)
    (hag : ∀ r c, r < b → g.iat r c = g'.iat r c) :
    ∀ fuel k, k ≤ b → loansHomeLoopF g fuel k = loansHomeLoopF g' fuel k := by
  intro fuel
  induction fuel with
  | zero => intro k _; rfl
  | succ f ih =>
    intro k hkb
    by_cases hk : k < g.nrows
    · have hk' : k < g'.nrows := by omega
      rcases Nat.lt_or_ge k b with hlt | hge
      · simp only [loansHomeLoopF]
        rw [if_pos hk, if_pos hk']
        rw [← hag k 10 hlt, ← guardedVal_congr hcn (hag k 11 hlt), ← ih (k + 1) (by omega)]
      · have hkeq : k = b := by omega
        subst hkeq
        simp only [loansHomeLoopF]
        rw [if_pos hk, if_pos hk', hb, hb']
        rfl
    · have hk' : ¬ k < g'.nrows := by omega
      simp only [loansHomeLoopF]
      rw [if_neg hk, if_neg hk']

lemma friendsLoopF_blind (g g' : Grid) (hn : g.nrows = g'.nrows)
    (hcn : g.ncols = g'.ncols) (b : Nat) (hb : g.iat b 10 = some Cell.empty)
    (hb' : g'.iat b 10 = some Cell.empty)
    (hag : ∀ r c, r < b → g.iat r c = g'.iat r c) :
    ∀ fuel k, k ≤ b → friendsLoopF g fuel k = friendsLoopF g' fuel k := by
  intro fuel
  induction fuel with
  | zero => intro k _; rfl
  | succ f ih =>
    intro k hkb
    by_cases hk : k < g.nrows
    · have hk' : k < g'.nrows := by omega
      rcases Nat.lt_or_ge k b with hlt | hge
      · simp only [friendsLoopF]
        rw [if_pos hk, if_pos hk']
        rw [← hag k 10 hlt, ← guardedVal_congr hcn (hag k 11 hlt), ← ih (k + 1) (by omega)]
      · have hkeq : k = b := by omega
        subst hkeq
        simp only [friendsLoopF]
        rw [if_pos hk, if_pos hk', hb, hb']
        rfl
    · have hk' : ¬ k < g'.nrows := by omega
      simp only [friendsLoopF]
      rw [if_neg hk, if_neg hk']

/-! Column-locality congruence lemmas: each scan reads only its own
columns, so grids of equal shape agreeing there scan identically. -/

lemma findHeaderF_congr (g g' : Grid) (col : Nat) (p : Cell → Bool)
    (hn : g.nrows = g'.nrows) (hcol : ∀ i, g.iat i col = g'.iat i col) :
    ∀ fuel i, findHeaderF g col p fuel i = findHeaderF g' col p fuel i := by
  intro fuel
  induction fuel with
  | zero => intro i; rfl
  | succ f ih =>
    intro i
    by_cases hi : i < g.nrows
    · have hi' : i < g'.nrows := by omega
      simp only [findHeaderF]
      rw [if_pos hi, if_pos hi', ← hcol i, ← ih (i + 1)]
    · have hi' : ¬ i < g'.nrows := by omega
      simp only [findHeaderF]
      rw [if_neg hi, if_neg hi']

lemma catLoopF_congr (g g' : Grid) (stops : List String) (pfx : String)
    (hn : g.nrows = g'.nrows) (hcn : g.ncols = g'.ncols)
    (h0 : ∀ i, g.iat i 0 = g'.iat i 0) (h1 : ∀ i, g.iat i 1 = g'.iat i 1)
    (h2 : ∀ i, g.iat i 2 = g'.iat i 2) :
    ∀ fuel i, catLoopF g stops pfx fuel i = catLoopF g' stops pfx fuel i := by
  intro fuel
  induction fuel with
  | zero => intro i; rfl
  | succ f ih =>
    intro i
    by_cases hi : i < g.nrows
    · have hi' : i < g'.nrows := by omega
      simp only [catLoopF]
      rw [if_pos hi, if_pos hi', ← h0 i, ← rawVal_congr (h1 i),
        ← guardedVal_congr hcn (h2 i), ← ih (i + 1)]
    · have hi' : ¬ i < g'.nrows := by omega
      simp only [catLoopF]
      rw [if_neg hi, if_neg hi']

lemma fundsLoopF_congr (g g' : Grid) (hn : g.nrows = g'.nrows) (hcn : g.ncols = g'.ncols)
    (h7 : ∀ i, g.iat i 7 = g'.iat i 7) (h8 : ∀ i, g.iat i 8 = g'.iat i 8) :
    ∀ fuel k, fundsLoopF g fuel k = fundsLoopF g' fuel k := by
  intro fuel
  induction fuel with
  | zero => intro k; rfl
  | succ f ih =>
    intro k
    by_cases hk : k < g.nrows
    · have hk' : k < g'.nrows := by omega
      simp only [fundsLoopF]
      rw [if_pos hk, if_pos hk', ← h7 k, ← guardedVal_congr hcn (h8 k), ← ih (k + 1)]
    · have hk' : ¬ k < g'.nrows := by omega
      simp only [fundsLoopF]
      rw [if_neg hk, if_neg hk']

lemma loansHomeLoopF_congr (g g' : Grid) (hn : g.nrows = g'.nrows)
    (hcn : g.ncols = g'.ncols) (h10 : ∀ i, g.iat i 10 = g'.iat i 10)
    (h11 : ∀ i, g.iat i 11 = g'.iat i 11) :
    ∀ fuel k, loansHomeLoopF g fuel k = loansHomeLoopF g' fuel k := by
  intro fuel
  induction fuel with
  | zero => intro k; rfl
  | succ f ih =>
    intro k
    by_cases hk : k < g.nrows
    · have hk' : k < g'.nrows := by omega
      simp only [loansHomeLoopF]
      rw [if_pos hk, if_pos hk', ← h10 k, ← guardedVal_congr hcn (h11 k), ← ih (k + 1)]
    · have hk' : ¬ k < g'.nrows := by omega
      simp only [loansHomeLoopF]
      rw [if_neg hk, if_neg hk']

lemma friendsLoopF_congr (g g' : Grid) (hn : g.nrows = g'.nrows)
    (hcn : g.ncols = g'.ncols) (h10 : ∀ i, g.iat i 10 = g'.iat i 10)
    (h11 : ∀ i, g.iat i 11 = g'.iat i 11) :
    ∀ fuel k, friendsLoopF g fuel k = friendsLoopF g' fuel k := by
  intro fuel
  induction fuel with
  | zero => intro k; rfl
  | succ f ih =>
    intro k
    by_cases hk : k < g.nrows
    · have hk' : k < g'.nrows := by omega
      simp only [friendsLoopF]
      rw [if_pos hk, if_pos hk', ← h10 k, ← guardedVal_congr hcn (h11 k), ← ih (k + 1)]
    · have hk' : ¬ k < g'.nrows := by omega
      simp only [friendsLoopF]
      rw [if_neg hk, if_neg hk']

lemma catLoop_blind (g g' : Grid) (stops : List String) (pfx : String) {b i : Nat}
    (hn : g.nrows = g'.nrows) (hcn : g.ncols = g'.ncols)
    (hb : g.iat b 0 = some Cell.empty) (hb' : g'.iat b 0 = some Cell.empty)
    (hag : ∀ r c, r < b → g.iat r c = g'.iat r c) (hib : i ≤ b) :
    catLoop g stops pfx i = catLoop g' stops pfx i := by
  unfold catLoop
  rw [hn]
  exact catLoopF_blind g g' stops pfx hn hcn b hb hb' hag (g'.nrows - i) i hib

lemma fundsLoop_blind (g g' : Grid) {b k : Nat} (hn : g.nrows = g'.nrows)
    (hcn : g.ncols = g'.ncols) (hb : g.iat b 7 = some Cell.empty)
    (hb' : g'.iat b 7 = some Cell.empty)
    (hag : ∀ r c, r < b → g.iat r c = g'.iat r c) (hkb : k ≤ b) :
    fundsLoop g k = fundsLoop g' k := by
  unfold fundsLoop
  rw [hn]
  exact fundsLoopF_blind g g' hn hcn b hb hb' hag (g'.nrows - k) k hkb

lemma loansHomeLoop_blind (g g' : Grid) {b k : Nat} (hn : g.nrows = g'.nrows)
    (hcn : g.ncols = g'.ncols) (hb : g.iat b 10 = some Cell.empty)
    (hb' : g'.iat b 10 = some Cell.empty)
    (hag : ∀ r c, r < b → g.iat r c = g'.iat r c) (hkb : k ≤ b) :
    loansHomeLoop g k = loansHomeLoop g' k := by
  unfold loansHomeLoop
  rw [hn]
  exact loansHomeLoopF_blind g g' hn hcn b hb hb' hag (g'.nrows - k) k hkb

lemma friendsLoop_blind (g g' : Grid) {b k : Nat} (hn : g.nrows = g'.nrows)
    (hcn : g.ncols = g'.ncols) (hb : g.iat b 10 = some Cell.empty)
    (hb' : g'.iat b 10 = some Cell.empty)
    (hag : ∀ r c, r < b → g.iat r c = g'.iat r c) (hkb : k ≤ b) :
    friendsLoop g k = friendsLoop g' k := by
  unfold friendsLoop
  rw [hn]
  exact friendsLoopF_blind g g' hn hcn b hb hb' hag (g'.nrows - k) k hkb

/-- Every record the category loop emits has its Category built by
putting the section prefix in front of the stripped name. -/
lemma catLoopF_category_pfx (g : Grid) (stops : List String) (pfx : String) :
    ∀ fuel i out, catLoopF g stops pfx fuel i = Except.ok out →
      ∀ rec ∈ out, ∃ s, rec.Category = pfx ++ s := by
  intro fuel
  induction fuel with
  | zero =>
    intro i out h rec hrec
    simp only [catLoopF] at h
    injection h with h
    subst h
    simp at hrec
  | succ f ih =>
    intro i out h rec hrec
    simp only [catLoopF] at h
    by_cases hi : i < g.nrows
    · rw [if_pos hi] at h
      cases hc : g.iat i 0 with
      | none => simp [hc] at h
      | some c =>
        simp only [hc] at h
        by_cases hne : c = Cell.empty
        · rw [if_pos hne] at h
          injection h with h
          subst h
          simp at hrec
        · rw [if_neg hne] at h
          by_cases hstop : pyLower (pyStrip (cellStr c)) ∈ stops
          · rw [if_pos hstop] at h
            injection h with h
            subst h
            simp at hrec
          · rw [if_neg hstop] at h
            cases h1 : rawVal g i 1 with
            | error e => simp [h1] at h
            | ok p =>
              simp only [h1] at h
              cases h2 : guardedVal g i 2 with
              | error e => simp [h2] at h
              | ok a =>
                simp only [h2] at h
                cases h3 : catLoopF g stops pfx f (i + 1) with
                | error e => simp [h3] at h
                | ok rest =>
                  simp only [h3] at h
                  injection h with h
                  subst h
                  rcases List.mem_cons.mp hrec with hhead | htail
                  · subst hhead
                    exact ⟨pyStrip (cellStr c), rfl⟩
                  · exact ih (i + 1) rest h3 rec htail
    · rw [if_neg hi] at h
      injection h with h
      subst h
      simp at hrec

lemma catLoop_category_pfx (g : Grid) (stops : List String) (pfx : String) (i : Nat)
    (out : List CatRec) (h : catLoop g stops pfx i = Except.ok out) :
    ∀ rec ∈ out, ∃ s, rec.Category = pfx ++ s :=
  catLoopF_category_pfx g stops pfx (g.nrows - i) i out h

/-! Aggregation: one unfolding step of the spec-side formulation. -/

lemma aggregateSpec_cons (s : String × Grid) (rest : List (String × Grid)) :
    aggregateSpec (s :: rest) =
      match parse_month_sheet s.2 with
      | Except.error e => Except.error e
      | Except.ok r =>
        match aggregateSpec rest with
        | Except.error e => Except.error e
        | Except.ok t =>
          Except.ok ⟨(tagTables s.1 r).cat_rows ++ t.cat_rows,
                     (tagTables s.1 r).funds_rows ++ t.funds_rows,
                     (tagTables s.1 r).loans_home_rows ++ t.loans_home_rows,
                     (tagTables s.1 r).loans_friends_rows ++ t.loans_friends_rows⟩ := by
  unfold aggregateSpec
  rw [List.mapM_cons]
  cases hp : parse_month_sheet s.2 with
  | error e => rfl
  | ok r =>
    cases hm : List.mapM (fun sh => Except.map (tagTables sh.1) (parse_month_sheet sh.2)) rest with
    | error e => rfl
    | ok ts => rfl

/-- The columns the parser can ever read. -/
def readCols : List Nat := [0, 1, 2, 7, 8, 10, 11]

lemma parse_month_sheet_congr (g g' : Grid) (hn : g.nrows = g'.nrows)
    (hcn : g.ncols = g'.ncols)
    (hag : ∀ i c, c ∈ readCols → g.iat i c = g'.iat i c) :
    parse_month_sheet g = parse_month_sheet g' := by
  have h0 : ∀ i, g.iat i 0 = g'.iat i 0 := fun i => hag i 0 (by simp [readCols])
  have h1 : ∀ i, g.iat i 1 = g'.iat i 1 := fun i => hag i 1 (by simp [readCols])
  have h2 : ∀ i, g.iat i 2 = g'.iat i 2 := fun i => hag i 2 (by simp [readCols])
  have h7 : ∀ i, g.iat i 7 = g'.iat i 7 := fun i => hag i 7 (by simp [readCols])
  have h8 : ∀ i, g.iat i 8 = g'.iat i 8 := fun i => hag i 8 (by simp [readCols])
  have h10 : ∀ i, g.iat i 10 = g'.iat i 10 := fun i => hag i 10 (by simp [readCols])
  have h11 : ∀ i, g.iat i 11 = g'.iat i 11 := fun i => hag i 11 (by simp [readCols])
  have hhome : homeCats g = homeCats g' := by
    unfold homeCats find_row_index
    rw [hn, findHeaderF_congr g g' 0 _ hn h0 g'.nrows 0]
    cases findHeaderF g' 0 (fun c => matchesKeyword c "home") g'.nrows 0 with
    | error e => rfl
    | ok r =>
      cases r with
      | none => rfl
      | some s =>
        show catLoop g homeStops "" (s + 1) = catLoop g' homeStops "" (s + 1)
        unfold catLoop
        rw [hn]
        exact catLoopF_congr g g' homeStops "" hn hcn h0 h1 h2 (g'.nrows - (s + 1)) (s + 1)
  have hbang : bangCats g = bangCats g' := by
    unfold bangCats find_row_index
    rw [hn, findHeaderF_congr g g' 0 _ hn h0 g'.nrows 0]
    cases findHeaderF g' 0 (fun c => matchesKeyword c "bangalore") g'.nrows 0 with
    | error e => rfl
    | ok r =>
      cases r with
      | none => rfl
      | some s =>
        show catLoop g bangStops "Bangalore - " (s + 1) = catLoop g' bangStops "Bangalore - " (s + 1)
        unfold catLoop
        rw [hn]
        exact catLoopF_congr g g' bangStops "Bangalore - " hn hcn h0 h1 h2
          (g'.nrows - (s + 1)) (s + 1)
  have hfunds : fundsSection g = fundsSection g' := by
    unfold fundsSection find_row_index
    rw [hcn, hn, findHeaderF_congr g g' 7 _ hn h7 g'.nrows 0]
    by_cases h7c : 7 < g'.ncols
    · rw [if_pos h7c, if_pos h7c]
      cases findHeaderF g' 7 (fun c => matchesKeyword c "funds") g'.nrows 0 with
      | error e => rfl
      | ok r =>
        cases r with
        | none => rfl
        | some s =>
          show fundsLoop g (s + 1) = fundsLoop g' (s + 1)
          unfold fundsLoop
          rw [hn]
          exact fundsLoopF_congr g g' hn hcn h7 h8 (g'.nrows - (s + 1)) (s + 1)
    · rw [if_neg h7c, if_neg h7c]
  have hlhs : loansHomeSection g = loansHomeSection g' := by
    unfold loansHomeSection
    rw [hcn, hn, findHeaderF_congr g g' 10 _ hn h10 g'.nrows 0]
    by_cases h10c : 10 < g'.ncols
    · rw [if_pos h10c, if_pos h10c]
      cases findHeaderF g' 10 (fun c => matchesKeywordStart c "loans/interest") g'.nrows 0 with
      | error e => rfl
      | ok r =>
        cases r with
        | none => rfl
        | some s =>
          show loansHomeLoop g (s + 1) = loansHomeLoop g' (s + 1)
          unfold loansHomeLoop
          rw [hn]
          exact loansHomeLoopF_congr g g' hn hcn h10 h11 (g'.nrows - (s + 1)) (s + 1)
    · rw [if_neg h10c, if_neg h10c]
  have hlfs : loansFriendsSection g = loansFriendsSection g' := by
    unfold loansFriendsSection
    rw [hcn, hn, findHeaderF_congr g g' 10 _ hn h10 g'.nrows 0]
    by_cases h10c : 10 < g'.ncols
    · rw [if_pos h10c, if_pos h10c]
      cases findHeaderF g' 10 (fun c => matchesKeywordStart c "friends side") g'.nrows 0 with
      | error e => rfl
      | ok r =>
        cases r with
        | none => rfl
        | some s =>
          show friendsLoop g (s + 1) = friendsLoop g' (s + 1)
          unfold friendsLoop
          rw [hn]
          exact friendsLoopF_congr g g' hn hcn h10 h11 (g'.nrows - (s + 1)) (s + 1)
    · rw [if_neg h10c, if_neg h10c]
  unfold parse_month_sheet
  rw [hhome, hbang, hfunds, hlhs, hlfs]

/-! Concrete grids used by the claim theorems, their counterexamples and
their witnesses. -/

/-- Shorthand for a text cell. -/
def T : String → Cell := Cell.text

/-- Shorthand for a numeric cell. -/
def N : Int → Cell := Cell.num

/-- Shorthand for an empty cell. -/
def E : Cell := Cell.empty

/-- Width-1 grid with a Home header followed by a data row. -/
def gW1 : Grid := ⟨1, [[T "Home"], [T "Rent"]]⟩

/-- Width-2 grid with a Home header followed by a data row. -/
def gW2 : Grid := ⟨2, [[T "Home", E], [T "Rent", N 1000]]⟩

/-- Grid whose planned and actual cells hold text. -/
def gTextPlanned : Grid := ⟨3, [[T "Home", E, E], [T "Rent", T "abc", T "xyz"]]⟩

/-- One row, zero columns. -/
def gZeroCols : Grid := ⟨0, [[]]⟩

/-- One data row and no recognized header anywhere. -/
def gNoHeaders : Grid := ⟨3, [[T "Groceries", N 1, N 2]]⟩

/-- Home header, a blank row, then a junk row. -/
def gBlindA : Grid := ⟨1, [[T "Home"], [E], [T "Stuff"]]⟩

/-- Same as gBlindA except below the blank row. -/
def gBlindB : Grid := ⟨1, [[T "Home"], [E], [T "Other"]]⟩

/-- The Funds scenario grid of the spec (columns 7 and 8). -/
def gFunds : Grid :=
  ⟨9, [[E, E, E, E, E, E, E, T "Funds", E],
       [E, E, E, E, E, E, E, T "Planned Payments", N 5000],
       [E, E, E, E, E, E, E, T "Emergency", N 2000],
       [E, E, E, E, E, E, E, T "Salary", N 50000],
       [E, E, E, E, E, E, E, T "Car", N 1000]]⟩

/-- The category scenario grid of the spec (Home and Bangalore sections). -/
def gCats : Grid :=
  ⟨3, [[T "Home", E, E],
       [T "Rent", N 1000, N 1200],
       [T "Food", N 500, E],
       [T "Bangalore", E, E],
       [T "Power", N 200, N 250],
       [T "Funds", E, E]]⟩

/-- The loans scenario grid of the spec (columns 10 and 11). -/
def gLoans : Grid :=
  ⟨12, [[E, E, E, E, E, E, E, E, E, E, T "Loans/Interest - Home Side", E],
        [E, E, E, E, E, E, E, E, E, E, T "Mortgage", N 15000],
        [E, E, E, E, E, E, E, E, E, E, T "Friends Side", E],
        [E, E, E, E, E, E, E, E, E, E, T "Alex", N 300]]⟩

/-- Home section with a duplicated category name. -/
def gDup : Grid :=
  ⟨3, [[T "Home", E, E], [T "Rent", N 100, N 110], [T "Rent", N 200, N 220]]⟩

/-- Grid with data in column 3, which the parser never reads. -/
def gLocA : Grid := ⟨4, [[T "Home", E, E, T "x"], [T "Rent", N 5, N 6, T "y"]]⟩

/-- Same as gLocA except in column 3. -/
def gLocB : Grid := ⟨4, [[T "Home", E, E, T "p"], [T "Rent", N 5, N 6, T "q"]]⟩

/-! Claim C1. -/

/-- C1 counterexample: the claim fails as stated. On the width-1 grid
with a Home header followed by a data row, the parser raises (the
unguarded read of column 1 at app.py line 70), and on the width-2 grid,
narrower than the three-column category band, it still emits a category
record rather than none. -/
theorem C1_counterexample :
    parse_month_sheet gW1 = Except.error () ∧
    parse_month_sheet gW2 = Except.ok ⟨[⟨"Rent", some (N 1000), none⟩], [], [], []⟩ ∧
    ([⟨"Rent", some (N 1000), none⟩] : List CatRec) ≠ [] :=
  ⟨by decide, by decide, by decide⟩

/-- C1 (amended): on every rectangular grid with at least two columns,
parse_month_sheet raises no exception and returns its four collections;
the never-raises guarantee does not extend to width 0 or to width-1
grids whose Home or Bangalore scan reaches a data row, and a width-2
grid with a Home header yields records with Actual absent rather than
no records. -/
theorem C1_never_raises_amended (g : Grid) (hwf : g.WF) (h2 : 2 ≤ g.ncols) :
    ∃ r, parse_month_sheet g = Except.ok r :=
  parse_month_sheet_ok g hwf h2

/-- C1 witness: the amended theorem applied to the width-2 grid. -/
theorem C1_witness : ∃ r, parse_month_sheet gW2 = Except.ok r :=
  C1_never_raises_amended gW2 (by unfold Grid.WF; decide) (by decide)

/-! Claim C2. -/

/-- C2 counterexample: a textual Planned cell is NOT discarded; the
emitted record carries the text itself, not an absent value. -/
theorem C2_counterexample :
    parse_month_sheet gTextPlanned =
      Except.ok ⟨[⟨"Rent", some (T "abc"), none⟩], [], [], []⟩ ∧
    (some (T "abc") : Option Cell) ≠ none :=
  ⟨by decide, by decide⟩

/-- C2 (amended): only the Actual field of the category sections
discards a textual value cell (the record is still emitted, name
intact, Actual absent); the Planned field, the fund Amount and both
loan Outstanding fields carry a textual value cell through as the text,
present rather than absent. -/
theorem C2_textual_values_amended :
    (∀ (g : Grid) (stops : List String) (pfx : String) (i : Nat) (c c1 : Cell) (s : String),
      g.iat i 0 = some c → c ≠ Cell.empty → pyLower (pyStrip (cellStr c)) ∉ stops →
      g.iat i 1 = some c1 → 2 < g.ncols → g.iat i 2 = some (Cell.text s) →
      catLoop g stops pfx i =
        Except.map (List.cons ⟨pfx ++ pyStrip (cellStr c),
            if c1 = Cell.empty then none else some c1, none⟩)
          (catLoop g stops pfx (i + 1))) ∧
    (∀ (g : Grid) (stops : List String) (pfx : String) (i : Nat) (c : Cell) (t : String)
      (a : Option Cell),
      g.iat i 0 = some c → c ≠ Cell.empty → pyLower (pyStrip (cellStr c)) ∉ stops →
      g.iat i 1 = some (Cell.text t) → guardedVal g i 2 = Except.ok a →
      catLoop g stops pfx i =
        Except.map (List.cons ⟨pfx ++ pyStrip (cellStr c), some (Cell.text t), dropText a⟩)
          (catLoop g stops pfx (i + 1))) ∧
    (∀ (g : Grid) (k : Nat) (c : Cell) (t : String),
      g.iat k 7 = some c → c ≠ Cell.empty → pyLower (pyStrip (cellStr c)) ∉ fundsSkips →
      8 < g.ncols → g.iat k 8 = some (Cell.text t) →
      fundsLoop g k =
        Except.map (List.cons ⟨pyStrip (cellStr c), some (Cell.text t)⟩)
          (fundsLoop g (k + 1))) ∧
    (∀ (g : Grid) (k : Nat) (c : Cell) (t : String),
      g.iat k 10 = some c → c ≠ Cell.empty →
      pyStarts (pyLower (pyStrip (cellStr c))) "friends side" = false →
      11 < g.ncols → g.iat k 11 = some (Cell.text t) →
      loansHomeLoop g k =
        Except.map (List.cons ⟨pyStrip (cellStr c), some (Cell.text t)⟩)
          (loansHomeLoop g (k + 1))) ∧
    (∀ (g : Grid) (k : Nat) (c : Cell) (t : String),
      g.iat k 10 = some c → c ≠ Cell.empty → 11 < g.ncols → g.iat k 11 = some (Cell.text t) →
      friendsLoop g k =
        Except.map (List.cons ⟨pyStrip (cellStr c), some (Cell.text t)⟩)
          (friendsLoop g (k + 1))) := by
  refine ⟨?_, ?_, ?_, ?_, ?_⟩
  · intro g stops pfx i c c1 s h hne hstop h1 h2c h2
    have hr1 : rawVal g i 1 = Except.ok (if c1 = Cell.empty then none else some c1) := by
      unfold rawVal
      rw [h1]
    have hr2 : guardedVal g i 2 = Except.ok (some (Cell.text s)) := by
      unfold guardedVal rawVal
      rw [if_pos h2c, h2]
      simp
    have hstep := catLoop_step g stops pfx h hne hstop hr1 hr2
    simpa using hstep
  · intro g stops pfx i c t a h hne hstop h1 ha
    have hr1 : rawVal g i 1 = Except.ok (some (Cell.text t)) := by
      unfold rawVal
      rw [h1]
      simp
    exact catLoop_step g stops pfx h hne hstop hr1 ha
  · intro g k c t h hne hskip h8 ht
    have ha : guardedVal g k 8 = Except.ok (some (Cell.text t)) := by
      unfold guardedVal rawVal
      rw [if_pos h8, ht]
      simp
    exact fundsLoop_step g h hne hskip ha
  · intro g k c t h hne hf h11 ht
    have ha : guardedVal g k 11 = Except.ok (some (Cell.text t)) := by
      unfold guardedVal rawVal
      rw [if_pos h11, ht]
      simp
    exact loansHomeLoop_step g h hne hf ha
  · intro g k c t h hne h11 ht
    have ha : guardedVal g k 11 = Except.ok (some (Cell.text t)) := by
      unfold guardedVal rawVal
      rw [if_pos h11, ht]
      simp
    exact friendsLoop_step g h hne ha

/-- C2 witness: the first amended clause applied to a concrete row whose
planned cell and actual cell are both text. -/
theorem C2_witness :
    catLoop gTextPlanned homeStops "" 1 =
      Except.map (List.cons ⟨"Rent", some (T "abc"), none⟩)
        (catLoop gTextPlanned homeStops "" 2) :=
  C2_textual_values_amended.1 gTextPlanned homeStops "" 1 (T "Rent") (T "abc") "xyz"
    (by decide) (by decide) (by decide) (by decide) (by decide) (by decide)

/-! Claim C3. -/

/-- C3 counterexample: a grid with one row and zero columns has no
recognized header cell at all, yet the parser raises, because
find_row_index reads column 0 of every row unguarded. -/
theorem C3_counterexample :
    noRecognizedHeader gZeroCols ∧ parse_month_sheet gZeroCols = Except.error () := by
  constructor
  · intro i hi
    have h1 : i < 1 := hi
    have h0 : i = 0 := by omega
    subst h0
    exact ⟨rfl, rfl, rfl, rfl, rfl⟩
  · decide

/-- C3 (amended): a rectangular grid with no recognized header keyword
in any section name column parses to four empty collections with no
exception, provided it has at least one column or no rows at all. -/
theorem C3_no_headers_amended (g : Grid) (hwf : g.WF) (hc : 1 ≤ g.ncols ∨ g.nrows = 0)
    (hnh : noRecognizedHeader g) : parse_month_sheet g = Except.ok ⟨[], [], [], []⟩ :=
  parse_month_sheet_no_headers g hwf hc hnh

/-- C3 witness: the amended theorem applied to a header-free grid. -/
theorem C3_witness : parse_month_sheet gNoHeaders = Except.ok ⟨[], [], [], []⟩ :=
  C3_no_headers_amended gNoHeaders (by unfold Grid.WF; decide) (Or.inl (by decide))
    (by
      intro i hi
      have h1 : i < 1 := hi
      have h0 : i = 0 := by omega
      subst h0
      exact ⟨by decide, by decide, by decide, by decide, by decide⟩)

/-! Claim C4. -/

/-- C4: in every section scan, a blank name cell terminates the scan at
once (the remaining scan yields no records), and the scan result from
any start position at or above the first blank is unchanged by
arbitrary changes to the rows at or below that blank in a grid of the
same shape: no row at or after the blank contributes a record. -/
theorem C4_blank_terminates :
    (∀ (g : Grid) (stops : List String) (pfx : String) (i : Nat),
      g.iat i 0 = some Cell.empty → catLoop g stops pfx i = Except.ok []) ∧
    (∀ (g : Grid) (k : Nat), g.iat k 7 = some Cell.empty → fundsLoop g k = Except.ok []) ∧
    (∀ (g : Grid) (k : Nat), g.iat k 10 = some Cell.empty → loansHomeLoop g k = Except.ok []) ∧
    (∀ (g : Grid) (k : Nat), g.iat k 10 = some Cell.empty → friendsLoop g k = Except.ok []) ∧
    (∀ (g g' : Grid) (stops : List String) (pfx : String) (b i : Nat),
      g.nrows = g'.nrows → g.ncols = g'.ncols → g.iat b 0 = some Cell.empty →
      g'.iat b 0 = some Cell.empty → (∀ r c, r < b → g.iat r c = g'.iat r c) → i ≤ b →
      catLoop g stops pfx i = catLoop g' stops pfx i) ∧
    (∀ (g g' : Grid) (b k : Nat),
      g.nrows = g'.nrows → g.ncols = g'.ncols → g.iat b 7 = some Cell.empty →
      g'.iat b 7 = some Cell.empty → (∀ r c, r < b → g.iat r c = g'.iat r c) → k ≤ b →
      fundsLoop g k = fundsLoop g' k) ∧
    (∀ (g g' : Grid) (b k : Nat),
      g.nrows = g'.nrows → g.ncols = g'.ncols → g.iat b 10 = some Cell.empty →
      g'.iat b 10 = some Cell.empty → (∀ r c, r < b → g.iat r c = g'.iat r c) → k ≤ b →
      loansHomeLoop g k = loansHomeLoop g' k) ∧
    (∀ (g g' : Grid) (b k : Nat),
      g.nrows = g'.nrows → g.ncols = g'.ncols → g.iat b 10 = some Cell.empty →
      g'.iat b 10 = some Cell.empty → (∀ r c, r < b → g.iat r c = g'.iat r c) → k ≤ b →
      friendsLoop g k = friendsLoop g' k) :=
  ⟨fun g stops pfx i h => catLoop_stop_empty g stops pfx h,
   fun g k h => fundsLoop_stop_empty g h,
   fun g k h => loansHomeLoop_stop_empty g h,
   fun g k h => friendsLoop_stop_empty g h,
   fun g g' stops pfx b i hn hcn hb hb' hag hib =>
     catLoop_blind g g' stops pfx hn hcn hb hb' hag hib,
   fun g g' b k hn hcn hb hb' hag hkb => fundsLoop_blind g g' hn hcn hb hb' hag hkb,
   fun g g' b k hn hcn hb hb' hag hkb => loansHomeLoop_blind g g' hn hcn hb hb' hag hkb,
   fun g g' b k hn hcn hb hb' hag hkb => friendsLoop_blind g g' hn hcn hb hb' hag hkb⟩

/-- C4 witness: two grids that agree above a blank name cell but differ
below it scan identically from the row after the header. -/
theorem C4_witness : catLoop gBlindA homeStops "" 1 = catLoop gBlindB homeStops "" 1 :=
  C4_blank_terminates.2.2.2.2.1 gBlindA gBlindB homeStops "" 1 1 rfl rfl
    (by decide) (by decide)
    (fun r c hr => by
      have h0 : r = 0 := by omega
      subst h0
      rfl)
    (le_refl 1)

/-! Claim C5. -/

/-- C5: inside the Funds scan a row named planned payments or salary is
skipped without terminating the scan, and the Funds scenario grid parses
to exactly the Emergency and Car fund records. -/
theorem C5_funds_skip_rows :
    (∀ (g : Grid) (k : Nat) (c : Cell), g.iat k 7 = some c → c ≠ Cell.empty →
      pyLower (pyStrip (cellStr c)) ∈ fundsSkips → fundsLoop g k = fundsLoop g (k + 1)) ∧
    parse_month_sheet gFunds =
      Except.ok ⟨[], [⟨"Emergency", some (N 2000)⟩, ⟨"Car", some (N 1000)⟩], [], []⟩ :=
  ⟨fun g k c h hne hk => fundsLoop_skip g h hne hk, by decide⟩

/-- C5 witness: the skip clause applied to the Planned Payments row of
the Funds scenario grid. -/
theorem C5_witness : fundsLoop gFunds 1 = fundsLoop gFunds 2 :=
  C5_funds_skip_rows.1 gFunds 1 (T "Planned Payments") (by decide) (by decide) (by decide)

/-! Claim C6. -/

/-- C6: every record the category loop emits carries the section prefix
in front of its name, the Home scan stops on the bangalore header
keyword, and the category scenario grid parses to Rent, Food and the
prefixed Bangalore - Power records in order. -/
theorem C6_bangalore_prefix :
    (∀ (g : Grid) (stops : List String) (pfx : String) (i : Nat) (out : List CatRec),
      catLoop g stops pfx i = Except.ok out → ∀ rec ∈ out, ∃ s, rec.Category = pfx ++ s) ∧
    (∀ (g : Grid) (pfx : String) (i : Nat) (c : Cell), g.iat i 0 = some c →
      matchesKeyword c "bangalore" = true → catLoop g homeStops pfx i = Except.ok []) ∧
    parse_month_sheet gCats =
      Except.ok ⟨[⟨"Rent", some (N 1000), some (N 1200)⟩, ⟨"Food", some (N 500), none⟩,
        ⟨"Bangalore - Power", some (N 200), some (N 250)⟩], [], [], []⟩ := by
  refine ⟨fun g stops pfx i out h => catLoop_category_pfx g stops pfx i out h, ?_, by decide⟩
  intro g pfx i c h hm
  cases c with
  | text s =>
    have hs : pyLower (pyStrip s) = "bangalore" := by simpa [matchesKeyword] using hm
    exact catLoop_stop_kw g homeStops pfx h (by simp) (by simp [cellStr, hs, homeStops])
  | num n => simp [matchesKeyword] at hm
  | empty => simp [matchesKeyword] at hm

/-- C6 witness: the stop clause applied to the Bangalore header row of
the category scenario grid. -/
theorem C6_witness : catLoop gCats homeStops "" 3 = Except.ok [] :=
  C6_bangalore_prefix.2.1 gCats "" 3 (T "Bangalore") (by decide) (by decide)

/-! Claim C7. -/

/-- C7: the home-side loan scan stops, without emitting, at a name that
starts with friends side, and the loans scenario grid parses to the
Mortgage home loan and the Alex friend loan. -/
theorem C7_loan_sections :
    (∀ (g : Grid) (k : Nat) (c : Cell), g.iat k 10 = some c → c ≠ Cell.empty →
      pyStarts (pyLower (pyStrip (cellStr c))) "friends side" = true →
      loansHomeLoop g k = Except.ok []) ∧
    parse_month_sheet gLoans =
      Except.ok ⟨[], [], [⟨"Mortgage", some (N 15000)⟩], [⟨"Alex", some (N 300)⟩]⟩ :=
  ⟨fun g k c h hne hf => loansHomeLoop_stop_friends g h hne hf, by decide⟩

/-- C7 witness: the stop clause applied to the Friends Side row of the
loans scenario grid. -/
theorem C7_witness : loansHomeLoop gLoans 2 = Except.ok [] :=
  C7_loan_sections.1 gLoans 2 (T "Friends Side") (by decide) (by decide) (by decide)

/-! Claim C8. -/

/-- C8: the aggregator equals the per-sheet concatenation, in sheet
order, of each sheet parse result with every record tagged with its
sheet name as Month. -/
theorem C8_aggregate_concat : ∀ ss : List (String × Grid), load_workbook ss = aggregateSpec ss := by
  intro ss
  induction ss with
  | nil => rfl
  | cons s rest ih =>
    rw [aggregateSpec_cons]
    unfold load_workbook
    rw [ih]

/-! Claim C9. -/

/-- Grid with duplicate names inside the Funds, home-loan and
friend-loan sections. -/
def gDupAll : Grid :=
  ⟨12, [[E, E, E, E, E, E, E, T "Funds", E, E, T "Loans/Interest - Home Side", E],
        [E, E, E, E, E, E, E, T "Emergency", N 100, E, T "Bank", N 10],
        [E, E, E, E, E, E, E, T "Emergency", N 200, E, T "Bank", N 20],
        [E, E, E, E, E, E, E, E, E, E, T "Friends Side", E],
        [E, E, E, E, E, E, E, E, E, E, T "Alex", N 1],
        [E, E, E, E, E, E, E, E, E, E, T "Alex", N 2]]⟩

/-- C9: in every section scan, each scanned row that is neither blank
nor a stop or skip keyword contributes exactly one record, prepended to
the records of the rest of the scan, independent of its name, so
duplicate names within one section stay as separate records with their
own values; concretely, the duplicate-name category grid parses to two
Rent records, and the combined grid parses to two Emergency fund
records, two Bank home-loan records and two Alex friend-loan records. -/
theorem C9_duplicates_preserved :
    (∀ (g : Grid) (stops : List String) (pfx : String) (i : Nat) (c : Cell) (p a : Option Cell),
      g.iat i 0 = some c → c ≠ Cell.empty → pyLower (pyStrip (cellStr c)) ∉ stops →
      rawVal g i 1 = Except.ok p → guardedVal g i 2 = Except.ok a →
      catLoop g stops pfx i =
        Except.map (List.cons ⟨pfx ++ pyStrip (cellStr c), p, dropText a⟩)
          (catLoop g stops pfx (i + 1))) ∧
    (∀ (g : Grid) (k : Nat) (c : Cell) (a : Option Cell),
      g.iat k 7 = some c → c ≠ Cell.empty → pyLower (pyStrip (cellStr c)) ∉ fundsSkips →
      guardedVal g k 8 = Except.ok a →
      fundsLoop g k =
        Except.map (List.cons ⟨pyStrip (cellStr c), a⟩) (fundsLoop g (k + 1))) ∧
    (∀ (g : Grid) (k : Nat) (c : Cell) (a : Option Cell),
      g.iat k 10 = some c → c ≠ Cell.empty →
      pyStarts (pyLower (pyStrip (cellStr c))) "friends side" = false →
      guardedVal g k 11 = Except.ok a →
      loansHomeLoop g k =
        Except.map (List.cons ⟨pyStrip (cellStr c), a⟩) (loansHomeLoop g (k + 1))) ∧
    (∀ (g : Grid) (k : Nat) (c : Cell) (a : Option Cell),
      g.iat k 10 = some c → c ≠ Cell.empty → guardedVal g k 11 = Except.ok a →
      friendsLoop g k =
        Except.map (List.cons ⟨pyStrip (cellStr c), a⟩) (friendsLoop g (k + 1))) ∧
    parse_month_sheet gDup =
      Except.ok ⟨[⟨"Rent", some (N 100), some (N 110)⟩, ⟨"Rent", some (N 200), some (N 220)⟩],
        [], [], []⟩ ∧
    parse_month_sheet gDupAll =
      Except.ok ⟨[],
        [⟨"Emergency", some (N 100)⟩, ⟨"Emergency", some (N 200)⟩],
        [⟨"Bank", some (N 10)⟩, ⟨"Bank", some (N 20)⟩],
        [⟨"Alex", some (N 1)⟩, ⟨"Alex", some (N 2)⟩]⟩ :=
  ⟨fun g stops pfx i c p a h hne hstop h1 h2 => catLoop_step g stops pfx h hne hstop h1 h2,
   fun g k c a h hne hskip ha => fundsLoop_step g h hne hskip ha,
   fun g k c a h hne hf ha => loansHomeLoop_step g h hne hf ha,
   fun g k c a h hne ha => friendsLoop_step g h hne ha,
   by decide,
   by decide⟩

/-- C9 witness: the one-record-per-row clause applied to the first Rent
row of the duplicate-name grid. -/
theorem C9_witness :
    catLoop gDup homeStops "" 1 =
      Except.map (List.cons ⟨"Rent", some (N 100), some (N 110)⟩)
        (catLoop gDup homeStops "" 2) :=
  C9_duplicates_preserved.1 gDup homeStops "" 1 (T "Rent") (some (N 100)) (some (N 110))
    (by decide) (by decide) (by decide) (by decide) (by decide)

/-! Claim C10. -/

/-- C10: two grids of the same shape that agree on columns 0, 1, 2, 7,
8, 10 and 11 parse identically; no other column influences the output. -/
theorem C10_column_locality (g g' : Grid) (hn : g.nrows = g'.nrows)
    (hcn : g.ncols = g'.ncols) (hag : ∀ i c, c ∈ readCols → g.iat i c = g'.iat i c) :
    parse_month_sheet g = parse_month_sheet g' :=
  parse_month_sheet_congr g g' hn hcn hag

/-- C10 witness: two grids differing only in column 3 parse identically. -/
theorem C10_witness : parse_month_sheet gLocA = parse_month_sheet gLocB :=
  C10_column_locality gLocA gLocB rfl rfl
    (fun i c hc => by
      rcases i with _ | _ | n
      · fin_cases hc <;> rfl
      · fin_cases hc <;> rfl
      · rfl)

end BudgetApp
